import Mathlib

/-!
Shallow embedding of the authentication layer of the `creacionesJL` storefront:
the Supabase service wrappers in `src/database/authService.tsx` and the session
synchronizer in `src/context/AuthContext.tsx`.

The identity provider (the Supabase SDK) is a black box: each SDK call is
modelled by its observable outcome, either resolving with a value or throwing
(rejecting) with a message.  The React state triple
(`user`, `session`, `isLoading`) is modelled as an explicit record, and each
synchronous run-to-completion segment of the component's code is a state
transformer on it.
-/

namespace CreacionesJL

/-- Identity record nested inside a session (opaque; only the fields the
synchronizer reads are modelled). -/
structure User where
  id : String
  email : String
deriving DecidableEq, Repr

/-- Session bundle issued by the provider; carries its user. -/
structure Session where
  user : User
  accessToken : String
deriving DecidableEq, Repr

/-- Structured provider error, shape `{ name, message }` (Supabase `AuthError`,
as read by this code). -/
structure AuthError where
  name : String
  message : String
deriving DecidableEq, Repr

/-- Observable outcome of awaiting a provider SDK call: the promise either
resolves with a value or rejects (throws) with an exception message. -/
inductive ProviderOutcome (α : Type) where
  | resolves (value : α)
  | throws (exnMessage : String)
deriving DecidableEq, Repr

/-- The `data` part of a Supabase auth response: `{ user, session }`. -/
structure AuthData where
  user : Option User
  session : Option Session
deriving DecidableEq, Repr

/-- What `supabase.auth.signInWithPassword` / `signUp` resolve with:
`{ data, error }`. -/
structure AuthResponse where
  data : AuthData
  error : Option AuthError
deriving DecidableEq, Repr

/-- What `supabase.auth.signOut` resolves with: `{ error }`. -/
structure SignOutResponse where
  error : Option AuthError
deriving DecidableEq, Repr

/-- Result type of `loginUser` and `registerUser` in
`src/database/authService.tsx` (`LoginResponse` / `RegisterResponse` share one
shape). -/
structure LoginResponse where
  user : Option User
  session : Option Session
  error : Option AuthError
deriving DecidableEq, Repr

/-- The metadata object built by `registerUser` and forwarded to
`supabase.auth.signUp` under `options.data`
(`src/database/authService.tsx` lines 71-75). -/
structure SignUpMetadata where
  first_name : String
  last_name : String
  full_name : String
deriving DecidableEq, Repr

/-- The request `registerUser` passes to `supabase.auth.signUp`:
email, password and the metadata object. -/
structure SignUpRequest where
  email : String
  password : String
  metadata : SignUpMetadata
deriving DecidableEq, Repr

/-- JavaScript `String.prototype.trim`: drop leading and trailing whitespace
characters.  Modelled structurally over the character list so it is fully
executable. -/
def jsTrim (s : String) : String :=
  String.mk
    (((s.data.dropWhile Char.isWhitespace).reverse.dropWhile
        Char.isWhitespace).reverse)

/-- The request built by `registerUser` from its arguments
(`src/database/authService.tsx` lines 66-79): `firstName || ''`,
`lastName || ''`, and `` `${firstName || ''} ${lastName || ''}`.trim() ``.
An omitted optional argument is `none`. -/
def signUpRequestOf (email password : String)
    (firstName lastName : Option String) : SignUpRequest :=
  { email := email
    password := password
    metadata :=
      { first_name := firstName.getD ""
        last_name := lastName.getD ""
        full_name := jsTrim (firstName.getD "" ++ " " ++ lastName.getD "") } }

/-- The error `registerUser` substitutes when the awaited call throws
(`src/database/authService.tsx` lines 92-95). -/
def registerUnexpectedError : AuthError :=
  { name := "UnexpectedError"
    message := "Ocurrió un error inesperado al registrar el usuario" }

/-- The error `loginUser` substitutes when the awaited call throws
(`src/database/authService.tsx` lines 144-147). -/
def loginUnexpectedError : AuthError :=
  { name := "UnexpectedError"
    message := "Ocurrió un error inesperado al iniciar sesión" }

/-- The error `logoutUser` substitutes when the awaited call throws
(`src/database/authService.tsx` lines 172-175). -/
def logoutUnexpectedError : AuthError :=
  { name := "UnexpectedError"
    message := "Ocurrió un error inesperado al cerrar sesión" }

/-- `registerUser` from `src/database/authService.tsx` (lines 58-98).
`signUp` is the provider call `supabase.auth.signUp`, modelled as a function
from the request to the outcome of awaiting it.  The whole body sits inside
`try ... catch`, so a throwing call is mapped to a normal response with the
`UnexpectedError` descriptor; on a resolving call `data.user`, `data.session`
and `error` are passed through unchanged. -/
def registerUser (email password : String) (firstName lastName : Option String)
    (signUp : SignUpRequest → ProviderOutcome AuthResponse) : LoginResponse :=
  match signUp (signUpRequestOf email password firstName lastName) with
  | ProviderOutcome.resolves r =>
      { user := r.data.user, session := r.data.session, error := r.error }
  | ProviderOutcome.throws _ =>
      { user := none, session := none, error := some registerUnexpectedError }

/-- `loginUser` from `src/database/authService.tsx` (lines 122-150).
`outcome` is the outcome of awaiting
`supabase.auth.signInWithPassword({ email, password })`. -/
def loginUser (email password : String)
    (outcome : ProviderOutcome AuthResponse) : LoginResponse :=
  match email, password, outcome with
  | _, _, ProviderOutcome.resolves r =>
      { user := r.data.user, session := r.data.session, error := r.error }
  | _, _, ProviderOutcome.throws _ =>
      { user := none, session := none, error := some loginUnexpectedError }

/-- `logoutUser` from `src/database/authService.tsx` (lines 165-178).
`outcome` is the outcome of awaiting `supabase.auth.signOut()`. -/
def logoutUser (outcome : ProviderOutcome SignOutResponse) : SignOutResponse :=
  match outcome with
  | ProviderOutcome.resolves r => { error := r.error }
  | ProviderOutcome.throws _ => { error := some logoutUnexpectedError }

/-! ## The session synchronizer (`src/context/AuthContext.tsx`) -/

/-- The React state of `AuthProvider`: the `user`, `session` and `isLoading`
`useState` cells (lines 66-68).  `isAuthenticated` is not stored: the context
value computes it from `user` at read time (line 150). -/
structure AuthState where
  user : Option User
  session : Option Session
  isLoading : Bool
deriving DecidableEq, Repr

/-- The initial state: `user = null`, `session = null`, `isLoading = true`
(lines 66-68). -/
def initialAuthState : AuthState :=
  { user := none, session := none, isLoading := true }

/-- `updateAuthState` (lines 73-77): sets `session`, sets
`user = session?.user ?? null` from the same session value, and sets
`isLoading = false`. -/
def updateAuthState (s : Option Session) (st : AuthState) : AuthState :=
  { st with
    session := s
    user := s.map Session.user
    isLoading := false }

/-- `isAuthenticated: !!user` in the context value (line 150), derived from
`user` at read time. -/
def isAuthenticated (st : AuthState) : Bool :=
  st.user.isSome

/-- Atomic state writes performed by the synchronizer while mounted.
`initialSession s` is the `getSession().then` handler (lines 89-91),
`sessionChange s` is the `onAuthStateChange` handler (lines 101-103); both
call `updateAuthState`.  `actionStart` is the `setIsLoading(true)` at the top
of `login` / `register` / `logout`, and `actionSettle` is the
`setIsLoading(false)` after the awaited service call settles. -/
inductive AuthEvent where
  | initialSession (s : Option Session)
  | sessionChange (s : Option Session)
  | actionStart
  | actionSettle
deriving DecidableEq, Repr

/-- How one atomic write transforms the state. -/
def applyEvent : AuthEvent → AuthState → AuthState
  | AuthEvent.initialSession s, st => updateAuthState s st
  | AuthEvent.sessionChange s, st => updateAuthState s st
  | AuthEvent.actionStart, st => { st with isLoading := true }
  | AuthEvent.actionSettle, st => { st with isLoading := false }

/-- Run a sequence of atomic writes, oldest first. -/
def runEvents (es : List AuthEvent) (st : AuthState) : AuthState :=
  es.foldl (fun a e => applyEvent e a) st

/-- A state is reachable when some sequence of atomic writes produces it from
the initial state. -/
def Reachable (st : AuthState) : Prop :=
  ∃ es : List AuthEvent, runEvents es initialAuthState = st

/-- The value an action's promise resolves with, as seen by the caller:
`login` and `register` resolve with `{ error }` (lines 118 and 133), while
`logout` is typed `Promise<void>` (line 44) and resolves with no value
(lines 139-144). -/
inductive ActionReturn where
  | errorResult (error : Option AuthError)
  | voidResult
deriving DecidableEq, Repr

/-- One invocation of a context action, recorded as the state while the
awaited service call is outstanding (`pending`), the state right after the
`setIsLoading(false)` that follows it (`final`), and the value the promise
resolves with.  None of the three actions ever rejects, because the
`authService` wrappers catch every throw, so every invocation yields such a
record. -/
structure ActionTrace where
  pending : AuthState
  final : AuthState
  result : ActionReturn
deriving DecidableEq, Repr

/-- `login` (lines 114-119): `setIsLoading(true)`, await
`loginUser(email, password)` (which never rejects), `setIsLoading(false)`,
resolve with `{ error }`.  The session/user cells are never written. -/
def login (email password : String) (outcome : ProviderOutcome AuthResponse)
    (st : AuthState) : ActionTrace :=
  let pending := { st with isLoading := true }
  let resp := loginUser email password outcome
  { pending := pending
    final := { pending with isLoading := false }
    result := ActionReturn.errorResult resp.error }

/-- `register` (lines 124-134): same discipline as `login`, delegating to
`registerUser` and resolving with `{ error }`. -/
def register (email password : String) (firstName lastName : Option String)
    (signUp : SignUpRequest → ProviderOutcome AuthResponse)
    (st : AuthState) : ActionTrace :=
  let pending := { st with isLoading := true }
  let resp := registerUser email password firstName lastName signUp
  { pending := pending
    final := { pending with isLoading := false }
    result := ActionReturn.errorResult resp.error }

/-- `logout` (lines 139-144): `setIsLoading(true)`, await `logoutUser()`
(which never rejects), `setIsLoading(false)`.  The `{ error }` value
`logoutUser` resolves with is discarded; the promise resolves with void. -/
def logout (outcome : ProviderOutcome SignOutResponse)
    (st : AuthState) : ActionTrace :=
  let pending := { st with isLoading := true }
  let _resp := logoutUser outcome
  { pending := pending
    final := { pending with isLoading := false }
    result := ActionReturn.voidResult }

/-! ## Lifecycle model: the mount effect, its subscription, and teardown

The `useEffect` with `[]` dependencies (lines 87-109) starts the initial
`supabase.auth.getSession()` fetch, subscribes to `onAuthStateChange`, and
returns a cleanup that calls `subscription.unsubscribe()`.  The host
(React plus the SDK) is modelled by its documented contract: the cleanup runs
once on unmount; an unsubscribed callback is no longer invoked, and state
writes against an unmounted component do not take effect. -/

/-- Outcome of the initial `supabase.auth.getSession()` promise: it either
resolves with `{ data: { session }, error }` or rejects. -/
inductive FetchOutcome where
  | resolves (session : Option Session) (error : Option AuthError)
  | rejects (exnMessage : String)
deriving DecidableEq, Repr

/-- One mounted synchronizer: its React state, whether it is still mounted
(equivalently, whether its subscription is still active — teardown ends both
together), and how many times `subscription.unsubscribe()` has been called. -/
structure SyncInstance where
  st : AuthState
  mounted : Bool
  unsubCalls : Nat
deriving DecidableEq, Repr

/-- A freshly mounted synchronizer: initial state, subscription active,
no unsubscribe call yet. -/
def initialInstance : SyncInstance :=
  { st := initialAuthState, mounted := true, unsubCalls := 0 }

/-- Events delivered to one instance by the host. -/
inductive HostEvent where
  | initialFetch (o : FetchOutcome)
  | change (s : Option Session)
  | teardown
deriving DecidableEq, Repr

/-- Host-level step.  The `.then` handler of the initial fetch destructures
`data.session` and calls `updateAuthState` (lines 89-91); the chain has no
rejection handler, so a rejecting fetch leaves the state untouched.  A
change-event runs the `onAuthStateChange` callback (lines 101-103) only while
the instance is mounted.  Teardown runs the effect cleanup, whose whole body
is one `subscription.unsubscribe()` call (lines 106-108). -/
def hostStep : HostEvent → SyncInstance → SyncInstance
  | HostEvent.initialFetch (FetchOutcome.resolves s _), i =>
      if i.mounted then { i with st := updateAuthState s i.st } else i
  | HostEvent.initialFetch (FetchOutcome.rejects _), i => i
  | HostEvent.change s, i =>
      if i.mounted then { i with st := updateAuthState s i.st } else i
  | HostEvent.teardown, i =>
      { i with mounted := false, unsubCalls := i.unsubCalls + 1 }

/-- Run a sequence of host events, oldest first. -/
def runHost (es : List HostEvent) (i : SyncInstance) : SyncInstance :=
  es.foldl (fun a e => hostStep e a) i

/-- Whether a host event is the teardown of the owning scope. -/
def isTeardown : HostEvent → Bool
  | HostEvent.teardown => true
  | HostEvent.initialFetch _ => false
  | HostEvent.change _ => false

/-- Number of teardown events in a host trace. -/
def countTeardowns (es : List HostEvent) : Nat :=
  (es.filter isTeardown).length

/-- Whether an awaited provider call came back as a success: it resolved and
reported no error. -/
def outcomeOk : ProviderOutcome AuthResponse → Bool
  | ProviderOutcome.resolves r => r.error.isNone
  | ProviderOutcome.throws _ => false

/-! ## Concrete values used to exercise the definitions -/

/-- A concrete user. -/
def testUser : User := { id := "u1", email := "a@b.com" }

/-- A concrete session for `testUser`. -/
def testSession : Session := { user := testUser, accessToken := "tok" }

/-- A concrete provider-reported error. -/
def testError : AuthError := { name := "SignOutError", message := "signOut failed" }

/-- A concrete successful provider response. -/
def testResponse : AuthResponse :=
  { data := { user := some testUser, session := some testSession }, error := none }

/-! ## Helper lemmas -/

/-- Every atomic write preserves the coupling of `user` to `session`. -/
theorem applyEvent_user_session (e : AuthEvent) (st : AuthState)
    (h : st.user = st.session.map Session.user) :
    (applyEvent e st).user = (applyEvent e st).session.map Session.user := by
  cases e <;> simp [applyEvent, updateAuthState, h]

/-- The coupling of `user` to `session` is preserved by any write sequence. -/
theorem runEvents_user_session (es : List AuthEvent) (st : AuthState)
    (h : st.user = st.session.map Session.user) :
    (runEvents es st).user = (runEvents es st).session.map Session.user := by
  induction es generalizing st with
  | nil => exact h
  | cons e es ih => exact ih (applyEvent e st) (applyEvent_user_session e st h)

/-- Appending one write to a sequence applies it last. -/
theorem runEvents_concat (es : List AuthEvent) (e : AuthEvent) (st : AuthState) :
    runEvents (es ++ [e]) st = applyEvent e (runEvents es st) := by
  simp [runEvents, List.foldl_append]

/-- One host step changes the unsubscribe count by the number of teardowns
it contains. -/
theorem hostStep_unsubCalls (e : HostEvent) (i : SyncInstance) :
    (hostStep e i).unsubCalls = i.unsubCalls + countTeardowns [e] := by
  cases e with
  | initialFetch o =>
      cases o with
      | resolves s err =>
          cases hm : i.mounted <;>
            simp [hostStep, hm, countTeardowns, isTeardown]
      | rejects msg => simp [hostStep, countTeardowns, isTeardown]
  | change s =>
      cases hm : i.mounted <;> simp [hostStep, hm, countTeardowns, isTeardown]
  | teardown => simp [hostStep, countTeardowns, isTeardown]

/-- Teardown count of a cons splits off the head. -/
theorem countTeardowns_cons (e : HostEvent) (es : List HostEvent) :
    countTeardowns (e :: es) = countTeardowns [e] + countTeardowns es := by
  cases he : isTeardown e with
  | false => simp [countTeardowns, List.filter, he]
  | true =>
      simp [countTeardowns, List.filter, he]
      omega

/-- Over a whole trace, the unsubscribe count grows by exactly the number of
teardown events. -/
theorem runHost_unsubCalls (es : List HostEvent) (i : SyncInstance) :
    (runHost es i).unsubCalls = i.unsubCalls + countTeardowns es := by
  induction es generalizing i with
  | nil => simp [runHost, countTeardowns]
  | cons e es ih =>
      have h1 : runHost (e :: es) i = runHost es (hostStep e i) := rfl
      rw [h1, ih, hostStep_unsubCalls, countTeardowns_cons e es]
      omega

/-- A host step on an unmounted instance leaves the React state untouched and
the instance unmounted. -/
theorem hostStep_unmounted (e : HostEvent) (i : SyncInstance)
    (h : i.mounted = false) :
    (hostStep e i).st = i.st ∧ (hostStep e i).mounted = false := by
  cases e with
  | initialFetch o => cases o <;> simp [hostStep, h]
  | change s => simp [hostStep, h]
  | teardown => simp [hostStep]

/-- No trace of host events mutates the React state of an unmounted
instance. -/
theorem runHost_unmounted (es : List HostEvent) (i : SyncInstance)
    (h : i.mounted = false) :
    (runHost es i).st = i.st := by
  induction es generalizing i with
  | nil => rfl
  | cons e es ih =>
      have hu := hostStep_unmounted e i h
      calc (runHost (e :: es) i).st = (runHost es (hostStep e i)).st := rfl
        _ = (hostStep e i).st := ih (hostStep e i) hu.2
        _ = i.st := hu.1

/-! ## Claims -/

/-- Claim C1: in every reachable state of the synchronizer, `isAuthenticated`
equals `user != null` (it is derived from `user` at read time), and `user`
equals `session?.user`; moreover every atomic state write either leaves both
`session` and `user` untouched or goes through `updateAuthState`, which sets
them together from the same session value — `user` is never set
independently. -/
theorem reachable_state_user_session_invariant (st : AuthState)
    (h : Reachable st) :
    (isAuthenticated st = true ↔ st.user ≠ none)
    ∧ st.user = st.session.map Session.user
    ∧ ∀ (e : AuthEvent) (s0 : AuthState),
        ((applyEvent e s0).user = s0.user ∧ (applyEvent e s0).session = s0.session)
        ∨ ∃ s, applyEvent e s0 = updateAuthState s s0 := by
  obtain ⟨es, rfl⟩ := h
  refine ⟨?_, runEvents_user_session es initialAuthState rfl, ?_⟩
  · cases hu : (runEvents es initialAuthState).user <;>
      simp [isAuthenticated, hu]
  · intro e s0
    cases e with
    | initialSession s => exact Or.inr ⟨s, rfl⟩
    | sessionChange s => exact Or.inr ⟨s, rfl⟩
    | actionStart => exact Or.inl ⟨rfl, rfl⟩
    | actionSettle => exact Or.inl ⟨rfl, rfl⟩

/-- Witness for claim C1: the state reached by one change-event carrying
`testSession` satisfies the `user == session?.user` invariant. -/
theorem reachable_state_user_session_invariant_witness :
    (runEvents [AuthEvent.sessionChange (some testSession)] initialAuthState).user
      = (runEvents [AuthEvent.sessionChange (some testSession)]
          initialAuthState).session.map Session.user :=
  (reachable_state_user_session_invariant
    (runEvents [AuthEvent.sessionChange (some testSession)] initialAuthState)
    ⟨[AuthEvent.sessionChange (some testSession)], rfl⟩).2.1

/-- Claim C2: every invocation of `login`, `register` or `logout`, for every
provider outcome (success, provider-reported error, or throw), has
`isLoading = true` while the delegated call is outstanding and
`isLoading = false` immediately after the promise settles; and `isLoading` is
true only during initialization (no atomic write applied yet) or while an
action is outstanding (the last atomic write is an action's
`setIsLoading(true)` whose matching settle has not happened). -/
theorem loading_flag_discipline :
    (∀ email password outcome st,
        (login email password outcome st).pending.isLoading = true
        ∧ (login email password outcome st).final.isLoading = false)
    ∧ (∀ email password firstName lastName signUp st,
        (register email password firstName lastName signUp st).pending.isLoading = true
        ∧ (register email password firstName lastName signUp st).final.isLoading = false)
    ∧ (∀ outcome st,
        (logout outcome st).pending.isLoading = true
        ∧ (logout outcome st).final.isLoading = false)
    ∧ (∀ es : List AuthEvent,
        (runEvents es initialAuthState).isLoading = true →
          es = [] ∨ es.getLast? = some AuthEvent.actionStart) := by
  refine ⟨fun _ _ _ _ => ⟨rfl, rfl⟩, fun _ _ _ _ _ _ => ⟨rfl, rfl⟩,
    fun _ _ => ⟨rfl, rfl⟩, ?_⟩
  intro es h
  induction es using List.reverseRecOn with
  | nil => exact Or.inl rfl
  | append_singleton es e _ =>
      rw [runEvents_concat] at h
      cases e with
      | initialSession s => simp [applyEvent, updateAuthState] at h
      | sessionChange s => simp [applyEvent, updateAuthState] at h
      | actionStart => exact Or.inr (by simp)
      | actionSettle => simp [applyEvent] at h

/-- Witness for claim C2: after the single atomic write `actionStart` the
loading flag is true, and that trace indeed ends in `actionStart`. -/
theorem loading_flag_discipline_witness :
    [AuthEvent.actionStart] = []
    ∨ [AuthEvent.actionStart].getLast? = some AuthEvent.actionStart :=
  loading_flag_discipline.2.2.2 [AuthEvent.actionStart] (by decide)

/-- Claim C3 counterexample: `logout` does not resolve with an error-carrying
`{ error }` result.  On a provider `signOut` that reports `testError`, the
value `logout` resolves with is void (`Promise<void>`, line 44 of
`AuthContext.tsx`): it is not an `{ error }` record carrying the failure, nor
a null-error record. -/
theorem logout_result_carries_no_error :
    (logout (ProviderOutcome.resolves { error := some testError })
        initialAuthState).result = ActionReturn.voidResult
    ∧ (logout (ProviderOutcome.resolves { error := some testError })
        initialAuthState).result ≠ ActionReturn.errorResult (some testError)
    ∧ (logout (ProviderOutcome.resolves { error := some testError })
        initialAuthState).result ≠ ActionReturn.errorResult none := by
  refine ⟨rfl, ?_, ?_⟩ <;> decide

/-- Claim C3 (amended): none of the three operations ever rejects — each is a
total function of the provider outcome, because the `authService` wrappers
catch every throw; `login` and `register` always resolve with an `{ error }`
result whose error is null exactly when the provider call succeeded, while
`logout` resolves with void, discarding the error `logoutUser` reports. -/
theorem operations_resolve_error_result_amended :
    (∀ email password outcome st,
        (login email password outcome st).result
          = ActionReturn.errorResult (loginUser email password outcome).error
        ∧ ((loginUser email password outcome).error = none
            ↔ outcomeOk outcome = true))
    ∧ (∀ email password firstName lastName signUp st,
        (register email password firstName lastName signUp st).result
          = ActionReturn.errorResult
              (registerUser email password firstName lastName signUp).error
        ∧ ((registerUser email password firstName lastName signUp).error = none
            ↔ outcomeOk (signUp (signUpRequestOf email password firstName lastName))
                = true))
    ∧ (∀ outcome st, (logout outcome st).result = ActionReturn.voidResult) := by
  refine ⟨?_, ?_, fun _ _ => rfl⟩
  · intro email password outcome st
    refine ⟨rfl, ?_⟩
    cases outcome with
    | resolves r => simp [loginUser, outcomeOk, Option.isNone_iff_eq_none]
    | throws m => simp [loginUser, outcomeOk, loginUnexpectedError]
  · intro email password firstName lastName signUp st
    refine ⟨rfl, ?_⟩
    cases h : signUp (signUpRequestOf email password firstName lastName) with
    | resolves r =>
        simp [registerUser, h, outcomeOk, Option.isNone_iff_eq_none]
    | throws m =>
        simp [registerUser, h, outcomeOk, registerUnexpectedError]

/-- Claim C4: each `authService` wrapper passes a structured provider error
through unchanged when the call resolves, and catches any throw, producing a
result whose error is exactly the shape `{ name: 'UnexpectedError', message }`
— with null `user` and `session` in the results that carry those fields. -/
theorem service_error_passthrough_and_normalization :
    (∀ email password r,
        loginUser email password (ProviderOutcome.resolves r)
          = { user := r.data.user, session := r.data.session, error := r.error })
    ∧ (∀ email password msg, ∃ m,
        loginUser email password (ProviderOutcome.throws msg)
          = { user := none, session := none,
              error := some { name := "UnexpectedError", message := m } })
    ∧ (∀ email password firstName lastName signUp r,
        signUp (signUpRequestOf email password firstName lastName)
            = ProviderOutcome.resolves r →
          registerUser email password firstName lastName signUp
            = { user := r.data.user, session := r.data.session, error := r.error })
    ∧ (∀ email password firstName lastName signUp msg,
        signUp (signUpRequestOf email password firstName lastName)
            = ProviderOutcome.throws msg →
          ∃ m, registerUser email password firstName lastName signUp
            = { user := none, session := none,
                error := some { name := "UnexpectedError", message := m } })
    ∧ (∀ r, logoutUser (ProviderOutcome.resolves r) = { error := r.error })
    ∧ (∀ msg, ∃ m,
        logoutUser (ProviderOutcome.throws msg)
          = { error := some { name := "UnexpectedError", message := m } }) := by
  refine ⟨fun _ _ _ => rfl,
    fun _ _ _ => ⟨loginUnexpectedError.message, rfl⟩, ?_, ?_,
    fun _ => rfl, fun _ => ⟨logoutUnexpectedError.message, rfl⟩⟩
  · intro email password firstName lastName signUp r h
    simp [registerUser, h]
  · intro email password firstName lastName signUp msg h
    exact ⟨registerUnexpectedError.message,
      by simp [registerUser, h, registerUnexpectedError]⟩

/-- Witness for claim C4: a concrete `signUp` resolving with `testResponse`
has its data passed through unchanged by `registerUser`. -/
theorem service_error_passthrough_and_normalization_witness :
    registerUser "a@b.com" "secret" none none
        (fun _ => ProviderOutcome.resolves testResponse)
      = { user := some testUser, session := some testSession, error := none } :=
  (service_error_passthrough_and_normalization.2.2.1 "a@b.com" "secret"
    none none (fun _ => ProviderOutcome.resolves testResponse) testResponse) rfl

/-- Claim C5: the three actions only ever write `isLoading`; both while the
delegated call is outstanding and after it settles, `session` and `user` are
exactly what they were before the call, for every provider outcome — in
particular `login` never copies the session/user of the provider response
into state.  The action events of the atomic-write model likewise leave
`session` and `user` untouched, so only the `updateAuthState` handlers modify
them. -/
theorem actions_never_write_session_or_user :
    (∀ email password outcome st,
        (login email password outcome st).pending.session = st.session
        ∧ (login email password outcome st).pending.user = st.user
        ∧ (login email password outcome st).final.session = st.session
        ∧ (login email password outcome st).final.user = st.user)
    ∧ (∀ email password firstName lastName signUp st,
        (register email password firstName lastName signUp st).pending.session = st.session
        ∧ (register email password firstName lastName signUp st).pending.user = st.user
        ∧ (register email password firstName lastName signUp st).final.session = st.session
        ∧ (register email password firstName lastName signUp st).final.user = st.user)
    ∧ (∀ outcome st,
        (logout outcome st).pending.session = st.session
        ∧ (logout outcome st).pending.user = st.user
        ∧ (logout outcome st).final.session = st.session
        ∧ (logout outcome st).final.user = st.user)
    ∧ (∀ st : AuthState,
        (applyEvent AuthEvent.actionStart st).session = st.session
        ∧ (applyEvent AuthEvent.actionStart st).user = st.user
        ∧ (applyEvent AuthEvent.actionSettle st).session = st.session
        ∧ (applyEvent AuthEvent.actionSettle st).user = st.user) :=
  ⟨fun _ _ _ _ => ⟨rfl, rfl, rfl, rfl⟩,
   fun _ _ _ _ _ _ => ⟨rfl, rfl, rfl, rfl⟩,
   fun _ _ => ⟨rfl, rfl, rfl, rfl⟩,
   fun _ => ⟨rfl, rfl, rfl, rfl⟩⟩

/-- Claim C6 counterexample: the initial `getSession()` chain has no rejection
handler (lines 89-91 of `AuthContext.tsx` use `.then` only), so on a fetch
that rejects the synchronizer does not transition to Ready: concretely, after
a rejecting initial fetch the instance is unchanged and `isLoading` is still
true, contradicting the claimed end state `isLoading = false`. -/
theorem initial_fetch_rejection_counterexample :
    hostStep (HostEvent.initialFetch (FetchOutcome.rejects "network error"))
        initialInstance = initialInstance
    ∧ (hostStep (HostEvent.initialFetch (FetchOutcome.rejects "network error"))
        initialInstance).st.isLoading = true :=
  ⟨rfl, rfl⟩

/-- Claim C6 (amended): if the initial fetch resolves with a provider-reported
error (alongside a null session), the error is ignored and the null session is
applied — the synchronizer transitions to Ready with `session = null`,
`user = null`, `isLoading = false`; but if the initial fetch rejects, the
rejection is unhandled and no transition occurs: the synchronizer stays in
Initializing with its state unchanged and `isLoading = true`. -/
theorem initial_fetch_failure_amended :
    (∀ err : Option AuthError,
        (hostStep (HostEvent.initialFetch (FetchOutcome.resolves none err))
            initialInstance).st
          = { user := none, session := none, isLoading := false })
    ∧ (∀ msg : String,
        hostStep (HostEvent.initialFetch (FetchOutcome.rejects msg))
            initialInstance = initialInstance
        ∧ (hostStep (HostEvent.initialFetch (FetchOutcome.rejects msg))
            initialInstance).st.isLoading = true) :=
  ⟨fun _ => rfl, fun _ => ⟨rfl, rfl⟩⟩

/-- Claim C7: from any state with `session = null`, `logout` resolves (it
never rejects, being a total function of the provider outcome), delivers no
error to its caller (its resolved value is void), and leaves
`session = null` — and `user` untouched — afterwards, for every provider
outcome. -/
theorem logout_idempotent_when_logged_out
    (outcome : ProviderOutcome SignOutResponse) (st : AuthState)
    (h : st.session = none) :
    (logout outcome st).final.session = none
    ∧ (logout outcome st).final.user = st.user
    ∧ (logout outcome st).result = ActionReturn.voidResult :=
  ⟨h, rfl, rfl⟩

/-- Witness for claim C7: logging out of the initial (logged-out) state under
a cleanly resolving `signOut` leaves the session null. -/
theorem logout_idempotent_when_logged_out_witness :
    (logout (ProviderOutcome.resolves { error := none })
        initialAuthState).final.session = none :=
  (logout_idempotent_when_logged_out
    (ProviderOutcome.resolves { error := none }) initialAuthState rfl).1

/-- Claim C8: across any host trace, `subscription.unsubscribe()` is called
exactly as many times as teardown runs — in particular exactly once on a trace
with one teardown — and once the instance is torn down (unmounted,
subscription cancelled) no change-event, indeed no host trace at all, mutates
the synchronized state fields. -/
theorem teardown_unsubscribe_once_and_no_mutation
    (i : SyncInstance) (es : List HostEvent) :
    (runHost es i).unsubCalls = i.unsubCalls + countTeardowns es
    ∧ (countTeardowns es = 1 →
        (runHost es i).unsubCalls = i.unsubCalls + 1)
    ∧ (i.mounted = false → (runHost es i).st = i.st)
    ∧ (∀ s, i.mounted = false → hostStep (HostEvent.change s) i = i) := by
  refine ⟨runHost_unsubCalls es i, ?_, runHost_unmounted es i, ?_⟩
  · intro h1
    rw [runHost_unsubCalls es i, h1]
  · intro s h
    simp [hostStep, h]

/-- Witness for claim C8: a single teardown of a fresh instance makes exactly
one unsubscribe call, and a change-event delivered after that teardown leaves
the instance — in particular its state fields — unchanged. -/
theorem teardown_unsubscribe_once_and_no_mutation_witness :
    (runHost [HostEvent.teardown] initialInstance).unsubCalls
        = initialInstance.unsubCalls + 1
    ∧ (runHost [HostEvent.change (some testSession)]
        (hostStep HostEvent.teardown initialInstance)).st
        = (hostStep HostEvent.teardown initialInstance).st
    ∧ hostStep (HostEvent.change (some testSession))
        (hostStep HostEvent.teardown initialInstance)
        = hostStep HostEvent.teardown initialInstance :=
  ⟨(teardown_unsubscribe_once_and_no_mutation initialInstance
      [HostEvent.teardown]).2.1 (by decide),
   (teardown_unsubscribe_once_and_no_mutation
      (hostStep HostEvent.teardown initialInstance)
      [HostEvent.change (some testSession)]).2.2.1 rfl,
   (teardown_unsubscribe_once_and_no_mutation
      (hostStep HostEvent.teardown initialInstance)
      [HostEvent.change (some testSession)]).2.2.2 (some testSession) rfl⟩

/-- Claim C9: a change-event firing before the initial fetch resolves is still
applied to the state fields, and the state fields follow last-write-wins: in
both delivery orders of the (resolving) initial fetch and a change-event, the
final `session` and `user` come from whichever was applied last. -/
theorem initial_fetch_change_event_last_write_wins
    (sFetch sEvt : Option Session) (err : Option AuthError) :
    (runHost [HostEvent.change sEvt] initialInstance).st.session = sEvt
    ∧ (runHost [HostEvent.change sEvt] initialInstance).st.user
        = sEvt.map Session.user
    ∧ (runHost [HostEvent.change sEvt,
          HostEvent.initialFetch (FetchOutcome.resolves sFetch err)]
        initialInstance).st.session = sFetch
    ∧ (runHost [HostEvent.change sEvt,
          HostEvent.initialFetch (FetchOutcome.resolves sFetch err)]
        initialInstance).st.user = sFetch.map Session.user
    ∧ (runHost [HostEvent.initialFetch (FetchOutcome.resolves sFetch err),
          HostEvent.change sEvt] initialInstance).st.session = sEvt
    ∧ (runHost [HostEvent.initialFetch (FetchOutcome.resolves sFetch err),
          HostEvent.change sEvt] initialInstance).st.user
        = sEvt.map Session.user :=
  ⟨rfl, rfl, rfl, rfl, rfl, rfl⟩

/-- Claim C10: the metadata `registerUser` forwards to the provider defaults
`first_name` and `last_name` to the empty string when the optional arguments
are omitted, and sets `full_name` to the space-joined concatenation of the
two names with surrounding whitespace trimmed — so `full_name` is empty when
both are omitted and carries no stray space when only one is given. -/
theorem register_forwarded_metadata (email password : String)
    (firstName lastName : Option String) :
    (signUpRequestOf email password firstName lastName).metadata.first_name
        = firstName.getD ""
    ∧ (signUpRequestOf email password firstName lastName).metadata.last_name
        = lastName.getD ""
    ∧ (signUpRequestOf email password firstName lastName).metadata.full_name
        = jsTrim (firstName.getD "" ++ " " ++ lastName.getD "")
    ∧ (signUpRequestOf email password none none).metadata.full_name = ""
    ∧ (signUpRequestOf email password (some "Juan") none).metadata.full_name
        = "Juan"
    ∧ (signUpRequestOf email password none (some "Ana")).metadata.full_name
        = "Ana" := by
  refine ⟨rfl, rfl, rfl, ?_, ?_, ?_⟩ <;> · simp only [signUpRequestOf]; decide

end CreacionesJL
